import Mathlib

/-
Verification development for saltext-vmware, module
src/src/saltext/vmware_vsphere/modules/vmware_firewall.py.

The module exposes two operations, `get_firewall_status` and
`enable_firewall_ruleset`.  Each builds an esxcli command string, then either
iterates an explicit `esxi_hosts` list (one remote call per host, results
merged into a dict keyed by host) or performs a single remote call keyed by
the top-level `host` argument.

The remote helper `salt.utils.vmware.esxcli` is an external collaborator; it
is embedded as a function parameter `esxcli : EsxcliCall → CmdResponse`
(a pure function of the call record, mirroring that every invocation for the
same target within one operation uses identical arguments).

Two names the module references are not imported or defined anywhere in it:
`CommandExecutionError` (the raise sites at lines 96 and 215) and
`_format_firewall_stdout` (the success-branch calls at lines 121 and 145).
Under Python name resolution, evaluating either name raises `NameError`, so
the embedding models those program points as a `PyErr.nameError` outcome.
Python dict semantics (`ret.update({k: v})`) are modelled by `dictUpdate` on
an association list: assignment to an existing key replaces the value in
place, a new key is appended.
-/

set_option autoImplicit false

deriving instance DecidableEq for Except

namespace VmwareFirewall

/-- The record returned by one remote `esxcli` invocation: the salt
`cmd.run_all` shape with keys retcode, stdout, stderr. -/
structure CmdResponse where
  retcode : Int
  stdout : String
  stderr : String
deriving DecidableEq

/-- The argument record of one call to `salt.utils.vmware.esxcli`, in the
order the source passes them: host, username, password, cmd, protocol, port,
esxi_host (absent on the single-host path), credstore. -/
structure EsxcliCall where
  host : String
  username : String
  password : String
  cmd : String
  protocol : Option String
  port : Option Nat
  esxi_host : Option String
  credstore : Option String
deriving DecidableEq

/-- Python values that can be passed for the dynamically typed parameters
`esxi_hosts` and `ruleset_enable`: None, a string, a boolean, an integer, or
a list of target strings. -/
inductive PyVal where
  | none
  | str (s : String)
  | bool (b : Bool)
  | int (n : Int)
  | list (xs : List String)
deriving DecidableEq

/-- Python truthiness, as used by `if esxi_hosts:`. -/
def PyVal.truthy : PyVal → Bool
  | .none => false
  | .str s => s != ""
  | .bool b => b
  | .int n => n != 0
  | .list xs => !xs.isEmpty

/-- Python `isinstance(v, list)`. -/
def PyVal.isList : PyVal → Bool
  | .list _ => true
  | _ => false

/-- Python `str(v)`, as performed by `"{}".format(v)` on each value shape. -/
def PyVal.pyStr : PyVal → String
  | .none => "None"
  | .str s => s
  | .bool true => "True"
  | .bool false => "False"
  | .int n => toString n
  | .list xs => "[" ++ String.intercalate ", " (xs.map (fun s => "\x27" ++ s ++ "\x27")) ++ "]"

/-- An exception escaping an operation.  In this module the only reachable
exception is a `NameError` carrying the unresolved name: the two names the
module uses without importing or defining them. -/
inductive PyErr where
  | nameError (missing : String)
deriving DecidableEq

/-- One parsed firewall rule set record: {name, enabled}. -/
structure RulesetStatus where
  name : String
  enabled : Bool
deriving DecidableEq

/-- The per-host value stored by `get_firewall_status`.  The failure branch
builds the dict {Error: stdout, success: False, rulesets: None}; the success
payload described by the spec is {rulesets: [...], success: true} with no
Error key (here `Error = none`). -/
structure StatusEntry where
  success : Bool
  rulesets : Option (List RulesetStatus)
  Error : Option String
deriving DecidableEq

/-- The dict built at vmware_firewall.py lines 110-118 and 134-142 for a
non-zero retcode: Error is the remote stdout, success False, rulesets None. -/
def failureEntry (stdoutText : String) : StatusEntry :=
  { success := false, rulesets := Option.none, Error := some stdoutText }

/-- A parse failure of the rule-set table: a row that does not match the
expected column count. -/
inductive ParseError where
  | badRow (row : String)
deriving DecidableEq

/-- Keys of a Python dict modelled as an association list, in insertion
order. -/
def dictKeys {α : Type} (d : List (String × α)) : List String :=
  d.map Prod.fst

/-- Lookup in a Python dict modelled as an association list. -/
def dictLookup {α : Type} : List (String × α) → String → Option α
  | [], _ => Option.none
  | p :: rest, k => if p.1 = k then some p.2 else dictLookup rest k

/-- Python `d.update({k: v})` / `d[k] = v`: replace the value of an existing
key in place, append a new key. -/
def dictUpdate {α : Type} : List (String × α) → String → α → List (String × α)
  | [], k, v => [(k, v)]
  | p :: rest, k, v => if p.1 = k then (k, v) :: rest else p :: dictUpdate rest k v

/-- Whether the second character list starts with the first. -/
def charsStartWith : List Char → List Char → Bool
  | [], _ => true
  | _ :: _, [] => false
  | a :: as, b :: bs => a == b && charsStartWith as bs

/-- Whether `pat` occurs as a contiguous run inside `s`. -/
def charsContain (pat : List Char) : List Char → Bool
  | [] => pat.isEmpty
  | c :: rest => charsStartWith pat (c :: rest) || charsContain pat rest

/-- Substring containment on strings (Python `pat in s`). -/
def strContains (s pat : String) : Bool :=
  charsContain pat.data s.data

/-- Split a character list on a separator character (Python str.split with an
explicit separator: empty pieces are kept). -/
def splitChar (sep : Char) (cs : List Char) : List (List Char) :=
  cs.foldr
    (fun c acc =>
      if c == sep then [] :: acc
      else
        match acc with
        | [] => [[c]]
        | a :: as => (c :: a) :: as)
    [[]]

/-- Split a string on a separator character, as a list of strings. -/
def splitStr (s : String) (sep : Char) : List String :=
  (splitChar sep s.data).map String.mk

/-- The command built by `get_firewall_status` (vmware_firewall.py line 91). -/
def statusCmd : String := "network firewall ruleset list"

/-- The command built by `enable_firewall_ruleset` (vmware_firewall.py lines
208-210): Python string formatting of ruleset_enable and ruleset_name. -/
def enableCmd (ruleset_enable : PyVal) (ruleset_name : String) : String :=
  "network firewall ruleset set --enabled " ++ ruleset_enable.pyStr
    ++ " --ruleset-id=" ++ ruleset_name

/-- The esxcli call record `get_firewall_status` passes: the status command
with the shared connection parameters and an optional per-target
esxi_host override. -/
def statusHostCall (host username password : String) (protocol : Option String)
    (port : Option Nat) (credstore : Option String) (esxi_host : Option String) :
    EsxcliCall :=
  { host := host, username := username, password := password, cmd := statusCmd,
    protocol := protocol, port := port, esxi_host := esxi_host, credstore := credstore }

/-- The esxcli call record `enable_firewall_ruleset` passes. -/
def enableHostCall (host username password : String) (ruleset_enable : PyVal)
    (ruleset_name : String) (protocol : Option String) (port : Option Nat)
    (credstore : Option String) (esxi_host : Option String) : EsxcliCall :=
  { host := host, username := username, password := password,
    cmd := enableCmd ruleset_enable ruleset_name,
    protocol := protocol, port := port, esxi_host := esxi_host, credstore := credstore }

/-- The `for esxi_host in esxi_hosts:` loop of `get_firewall_status`
(vmware_firewall.py lines 98-121).  A non-zero retcode stores the failure
dict and continues; a zero retcode reaches the call to
`_format_firewall_stdout`, a name not defined in the module, so evaluation
stops there with a NameError.  The first component accumulates the esxcli
calls actually performed. -/
def statusLoop (esxcli : EsxcliCall → CmdResponse) (mk : String → EsxcliCall) :
    List String → List EsxcliCall → List (String × StatusEntry) →
    List EsxcliCall × Except PyErr (List (String × StatusEntry))
  | [], calls, ret => (calls, .ok ret)
  | h :: rest, calls, ret =>
    let response := esxcli (mk h)
    if response.retcode ≠ 0 then
      statusLoop esxcli mk rest (calls ++ [mk h])
        (dictUpdate ret h (failureEntry response.stdout))
    else
      (calls ++ [mk h], .error (.nameError "_format_firewall_stdout"))

/-- Embeds `get_firewall_status` (vmware_firewall.py lines 45-147).  Returns
the list of esxcli calls performed together with either the result dict or
the escaping exception.  A truthy non-list `esxi_hosts` reaches
`raise CommandExecutionError(...)`, but `CommandExecutionError` is never
imported, so that statement raises a NameError. -/
def get_firewall_status (esxcli : EsxcliCall → CmdResponse)
    (host username password : String) (protocol : Option String) (port : Option Nat)
    (esxi_hosts : PyVal) (credstore : Option String) :
    List EsxcliCall × Except PyErr (List (String × StatusEntry)) :=
  if esxi_hosts.truthy then
    match esxi_hosts with
    | .list hosts =>
      statusLoop esxcli
        (fun h => statusHostCall host username password protocol port credstore (some h))
        hosts [] []
    | _ => ([], .error (.nameError "CommandExecutionError"))
  else
    let call := statusHostCall host username password protocol port credstore Option.none
    let response := esxcli call
    if response.retcode ≠ 0 then
      ([call], .ok (dictUpdate [] host (failureEntry response.stdout)))
    else
      ([call], .error (.nameError "_format_firewall_stdout"))

/-- The `for esxi_host in esxi_hosts:` loop of `enable_firewall_ruleset`
(vmware_firewall.py lines 217-228): the raw response record is stored per
host, with no retcode branching. -/
def enableLoop (esxcli : EsxcliCall → CmdResponse) (mk : String → EsxcliCall) :
    List String → List EsxcliCall → List (String × CmdResponse) →
    List EsxcliCall × List (String × CmdResponse)
  | [], calls, ret => (calls, ret)
  | h :: rest, calls, ret =>
    enableLoop esxcli mk rest (calls ++ [mk h]) (dictUpdate ret h (esxcli (mk h)))

/-- Embeds `enable_firewall_ruleset` (vmware_firewall.py lines 151-242).
No validation of `ruleset_enable` or `ruleset_name` is performed; both are
formatted straight into the command string.  As in `get_firewall_status`,
the non-list raise site hits the undefined name `CommandExecutionError`. -/
def enable_firewall_ruleset (esxcli : EsxcliCall → CmdResponse)
    (host username password : String) (ruleset_enable : PyVal) (ruleset_name : String)
    (protocol : Option String) (port : Option Nat) (esxi_hosts : PyVal)
    (credstore : Option String) :
    List EsxcliCall × Except PyErr (List (String × CmdResponse)) :=
  if esxi_hosts.truthy then
    match esxi_hosts with
    | .list hosts =>
      let r := enableLoop esxcli
        (fun h => enableHostCall host username password ruleset_enable ruleset_name
          protocol port credstore (some h))
        hosts [] []
      (r.1, .ok r.2)
    | _ => ([], .error (.nameError "CommandExecutionError"))
  else
    let call := enableHostCall host username password ruleset_enable ruleset_name
      protocol port credstore Option.none
    ([call], .ok (dictUpdate [] host (esxcli call)))

/-- One row of the rule-set table: split on blanks; a name with a boolean
literal is a record, any other two-column row is a header row and is
tolerated (skipped), and a row with a different column count is a
ParseError. -/
def parseRulesetRow (l : String) : Except ParseError (Option RulesetStatus) :=
  match (splitStr l ' ').filter (fun w => w != "") with
  | [n, "true"] => .ok (some { name := n, enabled := true })
  | [n, "false"] => .ok (some { name := n, enabled := false })
  | [_, _] => .ok Option.none
  | _ => .error (.badRow l)

/-- Parse every non-blank row, stopping at the first malformed row. -/
def parseRows : List String → Except ParseError (List RulesetStatus)
  | [] => .ok []
  | l :: rest =>
    match parseRulesetRow l with
    | .error e => .error e
    | .ok o =>
      match parseRows rest with
      | .error e => .error e
      | .ok rs =>
        .ok (match o with
             | Option.none => rs
             | some r => r :: rs)

/-- Modelled from the spec: the module calls `_format_firewall_stdout`
(vmware_firewall.py lines 121 and 145) but the helper is defined nowhere
under src.  Spec 4.4: the parser splits the tabular stdout into one record
{name, enabled} per rule set, tolerates header rows and trailing blank
lines, and a row that does not match the expected column count is a
ParseError.  Spec 6: the successful payload is
{rulesets: [{name, enabled}], success: true}. -/
def _format_firewall_stdout (response : CmdResponse) : Except ParseError StatusEntry :=
  match parseRows ((splitStr response.stdout '\n').filter (fun l => l != "")) with
  | .error e => .error e
  | .ok rows =>
    .ok { success := true, rulesets := some rows, Error := Option.none }

/-- A retcode-0 response carrying the given stdout text. -/
def statusOut (s : String) : CmdResponse :=
  { retcode := 0, stdout := s, stderr := "" }

/-- The parsed payload for the two-rule-set example table. -/
def exampleRulesets : StatusEntry :=
  { success := true,
    rulesets := some [{ name := "syslog", enabled := true },
                      { name := "sshServer", enabled := false }],
    Error := Option.none }

/-- A remote invoker whose every call fails: retcode 1, the actionable error
text on stdout. -/
def demoFail : EsxcliCall → CmdResponse :=
  fun _ => { retcode := 1, stdout := "Error: unreachable", stderr := "" }

/-- A remote invoker whose every call succeeds with a two-rule-set status
table on stdout. -/
def demoOk : EsxcliCall → CmdResponse :=
  fun _ => { retcode := 0, stdout := "Name Enabled\nsyslog true\nsshServer false\n", stderr := "" }

theorem dictKeys_nil {α : Type} : dictKeys ([] : List (String × α)) = [] := rfl

theorem dictKeys_cons {α : Type} (p : String × α) (d : List (String × α)) :
    dictKeys (p :: d) = p.1 :: dictKeys d := rfl

theorem dictKeys_dictUpdate {α : Type} (d : List (String × α)) (k : String) (v : α) :
    dictKeys (dictUpdate d k v) =
      if k ∈ dictKeys d then dictKeys d else dictKeys d ++ [k] := by
  induction d with
  | nil => simp [dictUpdate, dictKeys]
  | cons p rest ih =>
    by_cases h : p.1 = k
    · subst h; simp [dictUpdate, dictKeys]
    · simp only [dictUpdate, if_neg h, dictKeys_cons, ih]
      by_cases hk : k ∈ dictKeys rest <;>
        simp [hk, Ne.symm h]

theorem dictLookup_dictUpdate_self {α : Type} (d : List (String × α)) (k : String) (v : α) :
    dictLookup (dictUpdate d k v) k = some v := by
  induction d with
  | nil => simp [dictUpdate, dictLookup]
  | cons p rest ih =>
    by_cases h : p.1 = k
    · simp [dictUpdate, h, dictLookup]
    · simp [dictUpdate, h, dictLookup, ih]

theorem dictLookup_dictUpdate_other {α : Type} (d : List (String × α)) (k k' : String)
    (v : α) (h : k' ≠ k) : dictLookup (dictUpdate d k v) k' = dictLookup d k' := by
  induction d with
  | nil => simp [dictUpdate, dictLookup, Ne.symm h]
  | cons p rest ih =>
    by_cases hp : p.1 = k
    · subst hp; simp [dictUpdate, dictLookup, Ne.symm h]
    · by_cases hp' : p.1 = k' <;> simp [dictUpdate, hp, dictLookup, hp', h, ih]

theorem enableLoop_calls (esxcli : EsxcliCall → CmdResponse) (mk : String → EsxcliCall)
    (hosts : List String) (calls : List EsxcliCall) (ret : List (String × CmdResponse)) :
    (enableLoop esxcli mk hosts calls ret).1 = calls ++ hosts.map mk := by
  induction hosts generalizing calls ret with
  | nil => simp [enableLoop]
  | cons h rest ih => simp [enableLoop, ih]

theorem enableLoop_lookup (esxcli : EsxcliCall → CmdResponse) (mk : String → EsxcliCall)
    (hosts : List String) (calls : List EsxcliCall) (ret : List (String × CmdResponse))
    (t : String) :
    dictLookup (enableLoop esxcli mk hosts calls ret).2 t =
      if t ∈ hosts then some (esxcli (mk t)) else dictLookup ret t := by
  induction hosts generalizing calls ret with
  | nil => simp [enableLoop]
  | cons h rest ih =>
    rw [enableLoop, ih]
    by_cases hr : t ∈ rest
    · simp [hr]
    · by_cases ht : t = h
      · subst ht; simp [hr, dictLookup_dictUpdate_self]
      · simp [hr, ht, dictLookup_dictUpdate_other _ _ _ _ ht]

theorem enableLoop_keys (esxcli : EsxcliCall → CmdResponse) (mk : String → EsxcliCall)
    (hosts : List String) (calls : List EsxcliCall) (ret : List (String × CmdResponse))
    (hnd : hosts.Nodup) (hdisj : ∀ t ∈ hosts, t ∉ dictKeys ret) :
    dictKeys (enableLoop esxcli mk hosts calls ret).2 = dictKeys ret ++ hosts := by
  induction hosts generalizing calls ret with
  | nil => simp [enableLoop]
  | cons h rest ih =>
    rw [enableLoop]
    have hh : h ∉ dictKeys ret := hdisj h (by simp)
    have hnd' : rest.Nodup := (List.nodup_cons.mp hnd).2
    have hhr : h ∉ rest := (List.nodup_cons.mp hnd).1
    rw [ih _ _ hnd']
    · rw [dictKeys_dictUpdate, if_neg hh]; simp
    · intro t ht
      rw [dictKeys_dictUpdate, if_neg hh]
      simp only [List.mem_append, List.mem_singleton]
      rintro (hmem | rfl)
      · exact hdisj t (by simp [ht]) hmem
      · exact hhr ht

theorem statusLoop_calls_ok (esxcli : EsxcliCall → CmdResponse) (mk : String → EsxcliCall)
    (hosts : List String) (calls : List EsxcliCall) (ret : List (String × StatusEntry))
    (hall : ∀ t ∈ hosts, (esxcli (mk t)).retcode ≠ 0) :
    (statusLoop esxcli mk hosts calls ret).1 = calls ++ hosts.map mk ∧
      ∃ m, (statusLoop esxcli mk hosts calls ret).2 = .ok m := by
  induction hosts generalizing calls ret with
  | nil => simp [statusLoop]
  | cons h rest ih =>
    have hh := hall h (by simp)
    rw [statusLoop]
    simp only [if_pos hh]
    obtain ⟨h1, h2⟩ := ih (calls ++ [mk h])
      (dictUpdate ret h (failureEntry (esxcli (mk h)).stdout))
      (fun t ht => hall t (by simp [ht]))
    exact ⟨by simp [h1], h2⟩

theorem statusLoop_err (esxcli : EsxcliCall → CmdResponse) (mk : String → EsxcliCall)
    (hosts : List String) (t : String) (h0 : (esxcli (mk t)).retcode = 0) :
    ∀ (calls : List EsxcliCall) (ret : List (String × StatusEntry)), t ∈ hosts →
      (statusLoop esxcli mk hosts calls ret).2 =
        .error (.nameError "_format_firewall_stdout") := by
  induction hosts with
  | nil => intro _ _ ht; cases ht
  | cons h rest ih =>
    intro calls ret ht
    rw [statusLoop]
    by_cases hh : (esxcli (mk h)).retcode ≠ 0
    · have htr : t ∈ rest := by
        rcases List.mem_cons.mp ht with rfl | htr
        · exact absurd h0 hh
        · exact htr
      simp only [if_pos hh]
      exact ih _ _ htr
    · simp [if_neg hh]

theorem statusLoop_lookup_of_ok (esxcli : EsxcliCall → CmdResponse)
    (mk : String → EsxcliCall) (hosts : List String) (calls : List EsxcliCall)
    (ret : List (String × StatusEntry)) (m : List (String × StatusEntry))
    (hok : (statusLoop esxcli mk hosts calls ret).2 = .ok m) (t : String) :
    dictLookup m t =
      if t ∈ hosts then some (failureEntry (esxcli (mk t)).stdout)
      else dictLookup ret t := by
  induction hosts generalizing calls ret with
  | nil =>
    simp only [statusLoop] at hok
    cases hok
    simp
  | cons h rest ih =>
    rw [statusLoop] at hok
    by_cases hh : (esxcli (mk h)).retcode ≠ 0
    · rw [if_pos hh] at hok
      rw [ih _ _ hok]
      by_cases hr : t ∈ rest
      · simp [hr]
      · by_cases ht : t = h
        · subst ht; simp [hr, dictLookup_dictUpdate_self]
        · simp [hr, ht, dictLookup_dictUpdate_other _ _ _ _ ht]
    · rw [if_neg hh] at hok
      cases hok

theorem statusLoop_keys (esxcli : EsxcliCall → CmdResponse) (mk : String → EsxcliCall)
    (hosts : List String) (calls : List EsxcliCall) (ret : List (String × StatusEntry))
    (m : List (String × StatusEntry))
    (hok : (statusLoop esxcli mk hosts calls ret).2 = .ok m)
    (hnd : hosts.Nodup) (hdisj : ∀ t ∈ hosts, t ∉ dictKeys ret) :
    dictKeys m = dictKeys ret ++ hosts := by
  induction hosts generalizing calls ret with
  | nil =>
    simp only [statusLoop] at hok
    cases hok
    simp
  | cons h rest ih =>
    rw [statusLoop] at hok
    by_cases hh : (esxcli (mk h)).retcode ≠ 0
    · rw [if_pos hh] at hok
      have hhk : h ∉ dictKeys ret := hdisj h (by simp)
      have hnd' : rest.Nodup := (List.nodup_cons.mp hnd).2
      have hhr : h ∉ rest := (List.nodup_cons.mp hnd).1
      rw [ih _ _ hok hnd']
      · rw [dictKeys_dictUpdate, if_neg hhk]; simp
      · intro t ht
        rw [dictKeys_dictUpdate, if_neg hhk]
        simp only [List.mem_append, List.mem_singleton]
        rintro (hmem | rfl)
        · exact hdisj t (by simp [ht]) hmem
        · exact hhr ht
    · rw [if_neg hh] at hok
      cases hok

theorem enable_single_eq (esxcli : EsxcliCall → CmdResponse)
    (host username password : String) (re : PyVal) (rn : String)
    (protocol : Option String) (port : Option Nat) (credstore : Option String)
    (v : PyVal) (hv : v.truthy = false) :
    enable_firewall_ruleset esxcli host username password re rn protocol port v credstore =
      ([enableHostCall host username password re rn protocol port credstore Option.none],
        .ok [(host, esxcli (enableHostCall host username password re rn protocol port
          credstore Option.none))]) := by
  simp [enable_firewall_ruleset, hv, dictUpdate]

theorem enable_list_eq (esxcli : EsxcliCall → CmdResponse)
    (host username password : String) (re : PyVal) (rn : String)
    (protocol : Option String) (port : Option Nat) (credstore : Option String)
    (T : List String) (hne : T ≠ []) :
    enable_firewall_ruleset esxcli host username password re rn protocol port
        (PyVal.list T) credstore =
      ((enableLoop esxcli
          (fun h => enableHostCall host username password re rn protocol port credstore
            (some h)) T [] []).1,
        .ok (enableLoop esxcli
          (fun h => enableHostCall host username password re rn protocol port credstore
            (some h)) T [] []).2) := by
  have htr : (PyVal.list T).truthy = true := by
    cases T with
    | nil => exact absurd rfl hne
    | cons h t => rfl
  simp [enable_firewall_ruleset, htr]

theorem status_list_eq (esxcli : EsxcliCall → CmdResponse)
    (host username password : String) (protocol : Option String) (port : Option Nat)
    (credstore : Option String) (T : List String) (hne : T ≠ []) :
    get_firewall_status esxcli host username password protocol port
        (PyVal.list T) credstore =
      statusLoop esxcli
        (fun h => statusHostCall host username password protocol port credstore (some h))
        T [] [] := by
  have htr : (PyVal.list T).truthy = true := by
    cases T with
    | nil => exact absurd rfl hne
    | cons h t => rfl
  simp [get_firewall_status, htr]

theorem status_single_fail_eq (esxcli : EsxcliCall → CmdResponse)
    (host username password : String) (protocol : Option String) (port : Option Nat)
    (credstore : Option String) (v : PyVal) (hv : v.truthy = false)
    (hrc : (esxcli (statusHostCall host username password protocol port credstore
      Option.none)).retcode ≠ 0) :
    get_firewall_status esxcli host username password protocol port v credstore =
      ([statusHostCall host username password protocol port credstore Option.none],
        .ok [(host, failureEntry (esxcli (statusHostCall host username password protocol
          port credstore Option.none)).stdout)]) := by
  simp [get_firewall_status, hv, hrc, dictUpdate]

theorem status_single_ok_eq (esxcli : EsxcliCall → CmdResponse)
    (host username password : String) (protocol : Option String) (port : Option Nat)
    (credstore : Option String) (v : PyVal) (hv : v.truthy = false)
    (hrc : (esxcli (statusHostCall host username password protocol port credstore
      Option.none)).retcode = 0) :
    get_firewall_status esxcli host username password protocol port v credstore =
      ([statusHostCall host username password protocol port credstore Option.none],
        .error (.nameError "_format_firewall_stdout")) := by
  simp [get_firewall_status, hv, hrc]

/-- Claim C2: passing a scalar (a bare string) for esxi_hosts makes zero
remote esxcli calls in both operations, and the raise statement evaluates
the name CommandExecutionError, which the module never imports or defines,
so the call escapes with a NameError instead of the documented
configuration-error type. -/
theorem claim2_scalar_targets_zero_calls :
    get_firewall_status demoFail "my.vcenter.location" "root" "pw" Option.none Option.none
        (PyVal.str "esxi-1.host.com") Option.none =
      ([], .error (.nameError "CommandExecutionError")) ∧
    enable_firewall_ruleset demoFail "my.vcenter.location" "root" "pw" (PyVal.bool true)
        "syslog" Option.none Option.none (PyVal.str "esxi-1.host.com") Option.none =
      ([], .error (.nameError "CommandExecutionError")) :=
  ⟨rfl, rfl⟩

/-- Claim C3, counterexample: calling enable_firewall_ruleset with a
non-boolean-like ruleset_enable ("banana") and an empty ruleset_name raises
no error at all; one remote call is performed and its raw response is
returned, contradicting the claimed fail-fast validation. -/
theorem claim3_counterexample :
    (enable_firewall_ruleset demoFail "host1" "root" "pw" (PyVal.str "banana") ""
        Option.none Option.none PyVal.none Option.none).2 =
      .ok [("host1", { retcode := 1, stdout := "Error: unreachable", stderr := "" })] ∧
    (enable_firewall_ruleset demoFail "host1" "root" "pw" (PyVal.str "banana") ""
        Option.none Option.none PyVal.none Option.none).1.length = 1 :=
  ⟨rfl, rfl⟩

/-- Claim C3 (amended): enable_firewall_ruleset performs no validation of
ruleset_enable or ruleset_name.  For every ruleset_enable value and every
ruleset_name, including an empty name, str(ruleset_enable) and ruleset_name
are interpolated into the command string and remote invocation proceeds:
one call on the implicit-single-target path, and one call per target with
an overall ok result on every non-empty explicit list. -/
theorem claim3_no_validation (esxcli : EsxcliCall → CmdResponse)
    (host username password : String) (re : PyVal) (rn : String)
    (protocol : Option String) (port : Option Nat) (credstore : Option String) :
    (enable_firewall_ruleset esxcli host username password re rn protocol port
        PyVal.none credstore =
      ([enableHostCall host username password re rn protocol port credstore Option.none],
        .ok [(host, esxcli (enableHostCall host username password re rn protocol port
          credstore Option.none))])) ∧
    (∀ (h0 : String) (T : List String),
      (enable_firewall_ruleset esxcli host username password re rn protocol port
          (PyVal.list (h0 :: T)) credstore).1 =
        (h0 :: T).map (fun h => enableHostCall host username password re rn protocol port
          credstore (some h)) ∧
      ∃ m, (enable_firewall_ruleset esxcli host username password re rn protocol port
          (PyVal.list (h0 :: T)) credstore).2 = .ok m) ∧
    enableCmd re rn =
      "network firewall ruleset set --enabled " ++ re.pyStr ++ " --ruleset-id=" ++ rn := by
  refine ⟨enable_single_eq esxcli host username password re rn protocol port credstore
    PyVal.none rfl, ?_, rfl⟩
  intro h0 T
  rw [enable_list_eq esxcli host username password re rn protocol port credstore
    (h0 :: T) (List.cons_ne_nil h0 T)]
  exact ⟨enableLoop_calls esxcli _ (h0 :: T) [] [], _, rfl⟩

/-- Claim C5, counterexample: with ruleset_enable = True and ruleset_name =
"syslog", the single command built by enable_firewall_ruleset is
"network firewall ruleset set --enabled True --ruleset-id=syslog" (Python
str(True) renders "True"), and the case-sensitive substring "enabled true"
does not occur in it. -/
theorem claim5_counterexample :
    (enable_firewall_ruleset demoFail "host1" "root" "pw" (PyVal.bool true) "syslog"
        Option.none Option.none PyVal.none Option.none).1.map EsxcliCall.cmd =
      ["network firewall ruleset set --enabled True --ruleset-id=syslog"] ∧
    strContains "network firewall ruleset set --enabled True --ruleset-id=syslog"
      "enabled true" = false :=
  ⟨rfl, by decide⟩

/-- Claim C5 (amended): toggling with ruleset_enable = True and ruleset_name
= "syslog" on the implicit single target builds a command containing
"enabled True" (capitalized by Python str formatting) and
"ruleset-id=syslog", performs exactly one remote call, and the result
mapping has exactly one key, the endpoint host. -/
theorem claim5_toggle_syslog (esxcli : EsxcliCall → CmdResponse)
    (host username password : String) (protocol : Option String) (port : Option Nat)
    (credstore : Option String) :
    enable_firewall_ruleset esxcli host username password (PyVal.bool true) "syslog"
        protocol port PyVal.none credstore =
      ([enableHostCall host username password (PyVal.bool true) "syslog" protocol port
          credstore Option.none],
        .ok [(host, esxcli (enableHostCall host username password (PyVal.bool true)
          "syslog" protocol port credstore Option.none))]) ∧
    strContains (enableCmd (PyVal.bool true) "syslog") "enabled True" = true ∧
    strContains (enableCmd (PyVal.bool true) "syslog") "ruleset-id=syslog" = true ∧
    dictKeys [(host, esxcli (enableHostCall host username password (PyVal.bool true)
      "syslog" protocol port credstore Option.none))] = [host] :=
  ⟨enable_single_eq esxcli host username password (PyVal.bool true) "syslog" protocol
    port credstore PyVal.none rfl, by decide, by decide, rfl⟩

/-- Claim C8: the spec-modelled parser maps the retcode-0 tabular stdout
"Name Enabled\nsyslog true\nsshServer false\n" to success = true with
rulesets [{syslog, true}, {sshServer, false}], and tolerates the header row
and trailing blank lines: dropping the header and trailing newline, or
adding extra trailing blank lines, yields the same records. -/
theorem claim8_parser_example :
    _format_firewall_stdout (statusOut "Name Enabled\nsyslog true\nsshServer false\n") =
      .ok exampleRulesets ∧
    _format_firewall_stdout (statusOut "syslog true\nsshServer false") =
      .ok exampleRulesets ∧
    _format_firewall_stdout (statusOut "Name Enabled\nsyslog true\nsshServer false\n\n\n") =
      .ok exampleRulesets ∧
    _format_firewall_stdout (statusOut "only-one-column") =
      .error (.badRow "only-one-column") ∧
    exampleRulesets.success = true ∧
    exampleRulesets.rulesets =
      some [{ name := "syslog", enabled := true }, { name := "sshServer", enabled := false }] :=
  ⟨by rfl, by rfl, by rfl, by rfl, rfl, rfl⟩

/-- Claim C1, counterexample: with the duplicate explicit target list
["a", "a"], enable_firewall_ruleset returns a one-entry mapping, not a
two-entry one, because dict assignment collapses equal keys; and with
targets ["a", "b"] against an invoker whose calls return retcode 0,
get_firewall_status aborts with a NameError instead of returning a
two-entry mapping. -/
theorem claim1_counterexample :
    Except.map List.length
        (enable_firewall_ruleset demoFail "host1" "root" "pw" (PyVal.bool true) "syslog"
          Option.none Option.none (PyVal.list ["a", "a"]) Option.none).2 = Except.ok 1 ∧
    (["a", "a"] : List String).length = 2 ∧
    (get_firewall_status demoOk "host1" "root" "pw" Option.none Option.none
        (PyVal.list ["a", "b"]) Option.none).2 =
      Except.error (PyErr.nameError "_format_firewall_stdout") :=
  ⟨by decide, rfl, by decide⟩

/-- Claim C1 (amended): for any non-empty duplicate-free explicit target
list T, both operations invoke the remote helper exactly once per target
and, for enable_firewall_ruleset unconditionally and for
get_firewall_status provided every per-target invocation returns a non-zero
retcode (a zero retcode aborts the call with a NameError for the undefined
name _format_firewall_stdout), return a mapping with exactly |T| entries
whose key list is exactly T; in particular no single failure aborts the
remaining targets. -/
theorem claim1_total_coverage (esxcli : EsxcliCall → CmdResponse)
    (host username password : String) (re : PyVal) (rn : String)
    (protocol : Option String) (port : Option Nat) (credstore : Option String)
    (T : List String) (hne : T ≠ []) (hnd : T.Nodup)
    (hall : ∀ t ∈ T, (esxcli (statusHostCall host username password protocol port
      credstore (some t))).retcode ≠ 0) :
    ((enable_firewall_ruleset esxcli host username password re rn protocol port
        (PyVal.list T) credstore).1.length = T.length ∧
      ∃ m, (enable_firewall_ruleset esxcli host username password re rn protocol port
          (PyVal.list T) credstore).2 = .ok m ∧ dictKeys m = T ∧ m.length = T.length) ∧
    ((get_firewall_status esxcli host username password protocol port
        (PyVal.list T) credstore).1.length = T.length ∧
      ∃ m, (get_firewall_status esxcli host username password protocol port
          (PyVal.list T) credstore).2 = .ok m ∧ dictKeys m = T ∧ m.length = T.length) := by
  constructor
  · rw [enable_list_eq esxcli host username password re rn protocol port credstore T hne]
    have hk : dictKeys (enableLoop esxcli
        (fun h => enableHostCall host username password re rn protocol port credstore
          (some h)) T [] []).2 = T := by
      have h := enableLoop_keys esxcli
        (fun h => enableHostCall host username password re rn protocol port credstore
          (some h)) T [] [] hnd (by intro t ht; simp [dictKeys])
      simpa [dictKeys] using h
    refine ⟨by simp [enableLoop_calls], (enableLoop esxcli _ T [] []).2, rfl, hk, ?_⟩
    have h := congrArg List.length hk
    simpa [dictKeys] using h
  · rw [status_list_eq esxcli host username password protocol port credstore T hne]
    obtain ⟨hcalls, m, hm⟩ := statusLoop_calls_ok esxcli
      (fun h => statusHostCall host username password protocol port credstore (some h))
      T [] [] hall
    have hk : dictKeys m = T := by
      have h := statusLoop_keys esxcli
        (fun h => statusHostCall host username password protocol port credstore (some h))
        T [] [] m hm hnd (by intro t ht; simp [dictKeys])
      simpa [dictKeys] using h
    refine ⟨by simp [hcalls], m, hm, hk, ?_⟩
    have h := congrArg List.length hk
    simpa [dictKeys] using h

/-- Claim C1 witness: the amended statement instantiated at targets
["a", "b"] with an invoker whose every call fails. -/
theorem claim1_witness :
    ((["a", "b"] : List String) ≠ [] ∧ (["a", "b"] : List String).Nodup ∧
      ∀ t ∈ (["a", "b"] : List String),
        (demoFail (statusHostCall "host1" "root" "pw" Option.none Option.none
          Option.none (some t))).retcode ≠ 0) ∧
    (∃ m, (get_firewall_status demoFail "host1" "root" "pw" Option.none Option.none
        (PyVal.list ["a", "b"]) Option.none).2 = .ok m ∧ dictKeys m = ["a", "b"] ∧
      m.length = (["a", "b"] : List String).length) :=
  ⟨⟨by decide, by decide, by decide⟩,
    ((claim1_total_coverage demoFail "host1" "root" "pw" (PyVal.bool true) "syslog"
      Option.none Option.none Option.none ["a", "b"] (by decide) (by decide)
      (by decide)).2).2⟩

/-- Claim C4: every target whose remote invocation returns a non-zero
retcode is recorded by get_firewall_status with success = false,
rulesets = none, and the Error field equal to the invocation's stdout text,
both on the explicit-list path (for any target of any returned mapping) and
on the implicit single-target path. -/
theorem claim4_failure_entry (esxcli : EsxcliCall → CmdResponse)
    (host username password : String) (protocol : Option String) (port : Option Nat)
    (credstore : Option String) :
    (∀ (T : List String) (t : String) (m : List (String × StatusEntry)),
      (get_firewall_status esxcli host username password protocol port
          (PyVal.list T) credstore).2 = .ok m → t ∈ T →
      dictLookup m t =
        some (failureEntry (esxcli (statusHostCall host username password protocol port
          credstore (some t))).stdout)) ∧
    ((esxcli (statusHostCall host username password protocol port credstore
        Option.none)).retcode ≠ 0 →
      get_firewall_status esxcli host username password protocol port PyVal.none
          credstore =
        ([statusHostCall host username password protocol port credstore Option.none],
          .ok [(host, failureEntry (esxcli (statusHostCall host username password
            protocol port credstore Option.none)).stdout)])) ∧
    (∀ s, failureEntry s =
      { success := false, rulesets := Option.none, Error := some s }) := by
  refine ⟨?_, ?_, fun s => rfl⟩
  · intro T t m hm ht
    have hne : T ≠ [] := by rintro rfl; cases ht
    rw [status_list_eq esxcli host username password protocol port credstore T hne] at hm
    rw [statusLoop_lookup_of_ok esxcli _ T [] [] m hm t]
    simp [ht]
  · intro hrc
    exact status_single_fail_eq esxcli host username password protocol port credstore
      PyVal.none rfl hrc

/-- Claim C4 witness: the failure-entry property instantiated at the single
explicit target "a" with a failing invoker. -/
theorem claim4_witness :
    ((get_firewall_status demoFail "host1" "root" "pw" Option.none Option.none
        (PyVal.list ["a"]) Option.none).2 =
      .ok [("a", failureEntry "Error: unreachable")] ∧
      "a" ∈ (["a"] : List String)) ∧
    dictLookup [("a", failureEntry "Error: unreachable")] "a" =
      some (failureEntry (demoFail (statusHostCall "host1" "root" "pw" Option.none
        Option.none Option.none (some "a"))).stdout) :=
  ⟨⟨by decide, by decide⟩,
    (claim4_failure_entry demoFail "host1" "root" "pw" Option.none Option.none
      Option.none).1 ["a"] "a" [("a", failureEntry "Error: unreachable")] (by decide)
      (by decide)⟩

/-- Claim C6: with esxi_hosts empty or absent (falsy), both operations make
exactly one remote call keyed by the endpoint host;
enable_firewall_ruleset always returns the one-key mapping, and
get_firewall_status does so when the call fails (non-zero retcode) but
aborts with a NameError for the undefined name _format_firewall_stdout when
the call succeeds, returning no mapping at all. -/
theorem claim6_implicit_single_target (esxcli : EsxcliCall → CmdResponse)
    (host username password : String) (re : PyVal) (rn : String)
    (protocol : Option String) (port : Option Nat) (credstore : Option String)
    (v : PyVal) (hv : v.truthy = false) :
    enable_firewall_ruleset esxcli host username password re rn protocol port v
        credstore =
      ([enableHostCall host username password re rn protocol port credstore Option.none],
        .ok [(host, esxcli (enableHostCall host username password re rn protocol port
          credstore Option.none))]) ∧
    ((esxcli (statusHostCall host username password protocol port credstore
        Option.none)).retcode ≠ 0 →
      get_firewall_status esxcli host username password protocol port v credstore =
        ([statusHostCall host username password protocol port credstore Option.none],
          .ok [(host, failureEntry (esxcli (statusHostCall host username password
            protocol port credstore Option.none)).stdout)])) ∧
    ((esxcli (statusHostCall host username password protocol port credstore
        Option.none)).retcode = 0 →
      get_firewall_status esxcli host username password protocol port v credstore =
        ([statusHostCall host username password protocol port credstore Option.none],
          .error (.nameError "_format_firewall_stdout"))) :=
  ⟨enable_single_eq esxcli host username password re rn protocol port credstore v hv,
    fun hrc => status_single_fail_eq esxcli host username password protocol port
      credstore v hv hrc,
    fun hrc => status_single_ok_eq esxcli host username password protocol port
      credstore v hv hrc⟩

/-- Claim C6 witness: the implicit single-target behavior instantiated with
a failing invoker (one-key mapping) and with a succeeding invoker
(NameError). -/
theorem claim6_witness :
    (PyVal.none.truthy = false ∧
      (demoFail (statusHostCall "host1" "root" "pw" Option.none Option.none Option.none
        Option.none)).retcode ≠ 0 ∧
      (demoOk (statusHostCall "host1" "root" "pw" Option.none Option.none Option.none
        Option.none)).retcode = 0) ∧
    get_firewall_status demoFail "host1" "root" "pw" Option.none Option.none PyVal.none
        Option.none =
      ([statusHostCall "host1" "root" "pw" Option.none Option.none Option.none
          Option.none],
        .ok [("host1", failureEntry (demoFail (statusHostCall "host1" "root" "pw"
          Option.none Option.none Option.none Option.none)).stdout)]) ∧
    get_firewall_status demoOk "host1" "root" "pw" Option.none Option.none PyVal.none
        Option.none =
      ([statusHostCall "host1" "root" "pw" Option.none Option.none Option.none
          Option.none],
        .error (.nameError "_format_firewall_stdout")) :=
  ⟨⟨rfl, by decide, by decide⟩,
    (claim6_implicit_single_target demoFail "host1" "root" "pw" (PyVal.bool true)
      "syslog" Option.none Option.none Option.none PyVal.none rfl).2.1 (by decide),
    (claim6_implicit_single_target demoOk "host1" "root" "pw" (PyVal.bool true)
      "syslog" Option.none Option.none Option.none PyVal.none rfl).2.2 (by decide)⟩

/-- Claim C7: for every target of enable_firewall_ruleset the per-target
payload in the returned mapping is the raw esxcli response record passed
through unchanged, on both the explicit-list path and the implicit
single-target path, regardless of retcode (the invoker is arbitrary). -/
theorem claim7_raw_record (esxcli : EsxcliCall → CmdResponse)
    (host username password : String) (re : PyVal) (rn : String)
    (protocol : Option String) (port : Option Nat) (credstore : Option String) :
    (∀ (h0 : String) (T : List String) (t : String), t ∈ h0 :: T →
      ∃ m, (enable_firewall_ruleset esxcli host username password re rn protocol port
          (PyVal.list (h0 :: T)) credstore).2 = .ok m ∧
        dictLookup m t = some (esxcli (enableHostCall host username password re rn
          protocol port credstore (some t)))) ∧
    enable_firewall_ruleset esxcli host username password re rn protocol port
        PyVal.none credstore =
      ([enableHostCall host username password re rn protocol port credstore Option.none],
        .ok [(host, esxcli (enableHostCall host username password re rn protocol port
          credstore Option.none))]) := by
  constructor
  · intro h0 T t ht
    rw [enable_list_eq esxcli host username password re rn protocol port credstore
      (h0 :: T) (List.cons_ne_nil h0 T)]
    refine ⟨_, rfl, ?_⟩
    rw [enableLoop_lookup]
    simp [ht]
  · exact enable_single_eq esxcli host username password re rn protocol port credstore
      PyVal.none rfl

/-- Claim C7 witness: the raw pass-through instantiated at the single
explicit target "a" with a failing invoker. -/
theorem claim7_witness :
    ("a" ∈ ("a" :: ([] : List String))) ∧
    (∃ m, (enable_firewall_ruleset demoFail "host1" "root" "pw" (PyVal.bool true)
        "syslog" Option.none Option.none (PyVal.list ["a"]) Option.none).2 = .ok m ∧
      dictLookup m "a" = some (demoFail (enableHostCall "host1" "root" "pw"
        (PyVal.bool true) "syslog" Option.none Option.none Option.none (some "a")))) :=
  ⟨by decide,
    (claim7_raw_record demoFail "host1" "root" "pw" (PyVal.bool true) "syslog"
      Option.none Option.none Option.none).1 "a" [] "a" (by decide)⟩

/-- Claim C9: whenever some target's remote invocation returns retcode 0,
get_firewall_status reaches the call to _format_firewall_stdout, a name
defined nowhere in the module, and the whole call raises a NameError
instead of returning a parsed per-target payload, on both the explicit-list
path and the implicit single-target path. -/
theorem claim9_success_hits_name_error (esxcli : EsxcliCall → CmdResponse)
    (host username password : String) (protocol : Option String) (port : Option Nat)
    (credstore : Option String) :
    (∀ (T : List String) (t : String), t ∈ T →
      (esxcli (statusHostCall host username password protocol port credstore
        (some t))).retcode = 0 →
      (get_firewall_status esxcli host username password protocol port
          (PyVal.list T) credstore).2 =
        .error (.nameError "_format_firewall_stdout")) ∧
    ((esxcli (statusHostCall host username password protocol port credstore
        Option.none)).retcode = 0 →
      (get_firewall_status esxcli host username password protocol port PyVal.none
          credstore).2 =
        .error (.nameError "_format_firewall_stdout")) := by
  constructor
  · intro T t ht h0
    have hne : T ≠ [] := by rintro rfl; cases ht
    rw [status_list_eq esxcli host username password protocol port credstore T hne]
    exact statusLoop_err esxcli _ T t h0 [] [] ht
  · intro h0
    rw [status_single_ok_eq esxcli host username password protocol port credstore
      PyVal.none rfl h0]

/-- Claim C9 witness: the NameError outcome instantiated with an invoker
whose every call returns retcode 0, on targets ["a", "b"] and on the
implicit single target. -/
theorem claim9_witness :
    ("a" ∈ (["a", "b"] : List String) ∧
      (demoOk (statusHostCall "host1" "root" "pw" Option.none Option.none Option.none
        (some "a"))).retcode = 0 ∧
      (demoOk (statusHostCall "host1" "root" "pw" Option.none Option.none Option.none
        Option.none)).retcode = 0) ∧
    (get_firewall_status demoOk "host1" "root" "pw" Option.none Option.none
        (PyVal.list ["a", "b"]) Option.none).2 =
      .error (.nameError "_format_firewall_stdout") ∧
    (get_firewall_status demoOk "host1" "root" "pw" Option.none Option.none PyVal.none
        Option.none).2 =
      .error (.nameError "_format_firewall_stdout") :=
  ⟨⟨by decide, by decide, by decide⟩,
    (claim9_success_hits_name_error demoOk "host1" "root" "pw" Option.none Option.none
      Option.none).1 ["a", "b"] "a" (by decide) (by decide),
    (claim9_success_hits_name_error demoOk "host1" "root" "pw" Option.none Option.none
      Option.none).2 (by decide)⟩

/-- Claim C10: for every truthy non-list esxi_hosts value, both operations
perform zero remote calls and fail with a NameError for
CommandExecutionError, a name never imported or defined in the module,
rather than the documented configuration-error type. -/
theorem claim10_command_execution_error_undefined (esxcli : EsxcliCall → CmdResponse)
    (host username password : String) (re : PyVal) (rn : String)
    (protocol : Option String) (port : Option Nat) (credstore : Option String)
    (v : PyVal) (htr : v.truthy = true) (hnl : v.isList = false) :
    get_firewall_status esxcli host username password protocol port v credstore =
      ([], .error (.nameError "CommandExecutionError")) ∧
    enable_firewall_ruleset esxcli host username password re rn protocol port v
        credstore =
      ([], .error (.nameError "CommandExecutionError")) := by
  cases v with
  | none => simp [PyVal.truthy] at htr
  | str s =>
    exact ⟨by simp [get_firewall_status, htr], by simp [enable_firewall_ruleset, htr]⟩
  | bool b =>
    exact ⟨by simp [get_firewall_status, htr], by simp [enable_firewall_ruleset, htr]⟩
  | int n =>
    exact ⟨by simp [get_firewall_status, htr], by simp [enable_firewall_ruleset, htr]⟩
  | list xs => simp [PyVal.isList] at hnl

/-- Claim C10 witness: the NameError outcome instantiated at the scalar
string "esxi-1.host.com" passed for esxi_hosts. -/
theorem claim10_witness :
    ((PyVal.str "esxi-1.host.com").truthy = true ∧
      (PyVal.str "esxi-1.host.com").isList = false) ∧
    get_firewall_status demoOk "host1" "root" "pw" Option.none Option.none
        (PyVal.str "esxi-1.host.com") Option.none =
      ([], .error (.nameError "CommandExecutionError")) ∧
    enable_firewall_ruleset demoOk "host1" "root" "pw" (PyVal.bool true) "syslog"
        Option.none Option.none (PyVal.str "esxi-1.host.com") Option.none =
      ([], .error (.nameError "CommandExecutionError")) :=
  ⟨⟨by decide, rfl⟩,
    (claim10_command_execution_error_undefined demoOk "host1" "root" "pw"
      (PyVal.bool true) "syslog" Option.none Option.none Option.none
      (PyVal.str "esxi-1.host.com") (by decide) rfl).1,
    (claim10_command_execution_error_undefined demoOk "host1" "root" "pw"
      (PyVal.bool true) "syslog" Option.none Option.none Option.none
      (PyVal.str "esxi-1.host.com") (by decide) rfl).2⟩

end VmwareFirewall
